import Mathlib

/-!
Verification of the orchestration pipeline of the pdf-to-latex import workflow
(`import_v4`): the usage ledger, the validation-gated listing retry, the
two-branch page annotator, the per-item concurrent fan-out with its two-phase
dependency, and the geometric bbox refinement loop.

Each definition is a shallow embedding of the corresponding Python function;
the external completion service is modelled as an oracle argument (an
`Except`-valued response per call site), since its behaviour is opaque to the
orchestrator.  Floating-point quantities that no claim touches (cost estimates,
wall-clock durations) are omitted from the embedded records; coordinates are
modelled over `ℚ` and `ℤ`.
-/

namespace ImportV4

/-! ## Usage ledger (`utils/usage_tracker.py`) -/

/-- Modelled from the spec: `Usage` comes from the external `agents` library
(not part of this repository).  The spec's Usage Ledger contract says it
"accumulates into a running total via field-wise addition"; we model the four
counter fields the tracker reads and `Usage.add` as field-wise addition. -/
structure Usage where
  requests : Nat
  input_tokens : Nat
  output_tokens : Nat
  total_tokens : Nat
deriving Repr, DecidableEq

/-- A fresh `Usage()` object: all counters zero. -/
def Usage.init : Usage := ⟨0, 0, 0, 0⟩

/-- Modelled from the spec: field-wise accumulation (`self.total_usage.add(usage)`). -/
def Usage.addU (a b : Usage) : Usage :=
  ⟨a.requests + b.requests, a.input_tokens + b.input_tokens,
   a.output_tokens + b.output_tokens, a.total_tokens + b.total_tokens⟩

/-- `StepUsage` from `usage_tracker.py` restricted to the integer counter
fields (cost and duration are floats and enter no claim). -/
structure StepUsage where
  step_name : String
  requests : Nat
  input_tokens : Nat
  output_tokens : Nat
  total_tokens : Nat
deriving Repr, DecidableEq

/-- Building the `StepUsage` record inside `add_step_usage`. -/
def mkStepUsage (step_name : String) (usage : Usage) : StepUsage :=
  ⟨step_name, usage.requests, usage.input_tokens, usage.output_tokens, usage.total_tokens⟩

/-- The counter fields of a `StepUsage`, as a `Usage` (used to sum a breakdown). -/
def StepUsage.counters (s : StepUsage) : Usage :=
  ⟨s.requests, s.input_tokens, s.output_tokens, s.total_tokens⟩

/-- `UsageTracker`: `self.steps` is a Python dict keyed by step name (modelled
as an insertion-ordered association list) and `self.total_usage` the running
total. -/
structure UsageTracker where
  steps : List (String × StepUsage)
  total_usage : Usage
deriving Repr, DecidableEq

/-- `UsageTracker.__init__`: empty dict, zero total. -/
def UsageTracker.init : UsageTracker := ⟨[], Usage.init⟩

/-- Python dict assignment `d[k] = v`: replaces the value at an existing key in
place, otherwise appends at the end. -/
def dictSet (k : String) (v : StepUsage) : List (String × StepUsage) → List (String × StepUsage)
  | [] => [(k, v)]
  | (k2, v2) :: rest => if k2 = k then (k, v) :: rest else (k2, v2) :: dictSet k v rest

/-- `UsageTracker.add_step_usage`: builds the `StepUsage`, stores it under
`step_name` (`self.steps[step_name] = step_usage`, i.e. replacing any earlier
record of that name), and accumulates `usage` into the running total. -/
def add_step_usage (t : UsageTracker) (step_name : String) (usage : Usage) : UsageTracker :=
  { steps := dictSet step_name (mkStepUsage step_name usage) t.steps,
    total_usage := t.total_usage.addU usage }

/-- `UsageTracker.get_summary`, restricted to the data the claims mention: the
per-step breakdown and the grand-total counters.  It reads state without
mutating it. -/
def get_summary (t : UsageTracker) : List (String × StepUsage) × Usage :=
  (t.steps, t.total_usage)

/-- A whole run of the ledger: the sequence of `add_step_usage` calls, in the
order in which the event loop serialised them. -/
def runTracker (l : List (String × Usage)) : UsageTracker :=
  l.foldl (fun t p => add_step_usage t p.1 p.2) UsageTracker.init

/-- Field-wise sum of the per-step breakdown returned by `get_summary`. -/
def breakdownSum (t : UsageTracker) : Usage :=
  ((get_summary t).1.map (fun p => p.2.counters)).foldl Usage.addU Usage.init

lemma foldl_add_step_total (l : List (String × Usage)) (t : UsageTracker) :
    (l.foldl (fun t p => add_step_usage t p.1 p.2) t).total_usage =
      l.foldl (fun u p => u.addU p.2) t.total_usage := by
  induction l generalizing t with
  | nil => rfl
  | cons p rest ih =>
      rw [List.foldl_cons, List.foldl_cons, ih]
      rfl

lemma foldl_addU (l : List Usage) (u : Usage) :
    l.foldl Usage.addU u =
      ⟨u.requests + (l.map Usage.requests).sum,
       u.input_tokens + (l.map Usage.input_tokens).sum,
       u.output_tokens + (l.map Usage.output_tokens).sum,
       u.total_tokens + (l.map Usage.total_tokens).sum⟩ := by
  induction l generalizing u with
  | nil => simp
  | cons a rest ih =>
      simp only [List.foldl_cons, ih, Usage.addU, List.map_cons, List.sum_cons, Nat.add_assoc]

lemma runTracker_total (m : List (String × Usage)) :
    (runTracker m).total_usage =
      ⟨(m.map fun p => p.2.requests).sum, (m.map fun p => p.2.input_tokens).sum,
       (m.map fun p => p.2.output_tokens).sum, (m.map fun p => p.2.total_tokens).sum⟩ := by
  rw [runTracker, foldl_add_step_total]
  rw [show (fun (u : Usage) (p : String × Usage) => u.addU p.2)
        = fun u p => Usage.addU u (Prod.snd p) from rfl]
  rw [← List.foldl_map Prod.snd Usage.addU, foldl_addU]
  simp [UsageTracker.init, Usage.init, List.map_map, Function.comp_def]

/-- C8: the ledger's running total after appending any sequence of usage
records equals the field-wise sum of the records, and any reordering
(interleaving) of the same appends yields the same total — accumulation is
commutative/associative and order-independent. -/
theorem ledger_total_fieldwise_sum_order_independent
    (l l2 : List (String × Usage)) (h : l.Perm l2) :
    (runTracker l).total_usage =
      ⟨(l.map fun p => p.2.requests).sum, (l.map fun p => p.2.input_tokens).sum,
       (l.map fun p => p.2.output_tokens).sum, (l.map fun p => p.2.total_tokens).sum⟩ ∧
    (runTracker l).total_usage = (runTracker l2).total_usage := by
  refine ⟨runTracker_total l, ?_⟩
  rw [runTracker_total l, runTracker_total l2,
    (h.map fun p => p.2.requests).sum_eq, (h.map fun p => p.2.input_tokens).sum_eq,
    (h.map fun p => p.2.output_tokens).sum_eq, (h.map fun p => p.2.total_tokens).sum_eq]

/-- C8 witness: the spec's ledger scenario — steps `(1,100,50)`, `(1,200,80)`,
`(1,50,10)` totalled in two different append orders both give `(3,350,140)`. -/
theorem ledger_total_fieldwise_sum_order_independent_witness :
    ([("a", (⟨1, 100, 50, 150⟩ : Usage)), ("b", ⟨1, 200, 80, 280⟩), ("c", ⟨1, 50, 10, 60⟩)]).Perm
      [("c", (⟨1, 50, 10, 60⟩ : Usage)), ("a", ⟨1, 100, 50, 150⟩), ("b", ⟨1, 200, 80, 280⟩)] ∧
    (runTracker [("a", ⟨1, 100, 50, 150⟩), ("b", ⟨1, 200, 80, 280⟩), ("c", ⟨1, 50, 10, 60⟩)]).total_usage
      = ⟨3, 350, 140, 490⟩ ∧
    (runTracker [("a", ⟨1, 100, 50, 150⟩), ("b", ⟨1, 200, 80, 280⟩), ("c", ⟨1, 50, 10, 60⟩)]).total_usage
      = (runTracker [("c", ⟨1, 50, 10, 60⟩), ("a", ⟨1, 100, 50, 150⟩), ("b", ⟨1, 200, 80, 280⟩)]).total_usage := by
  have hp : ([("a", (⟨1, 100, 50, 150⟩ : Usage)), ("b", ⟨1, 200, 80, 280⟩), ("c", ⟨1, 50, 10, 60⟩)]).Perm
      [("c", (⟨1, 50, 10, 60⟩ : Usage)), ("a", ⟨1, 100, 50, 150⟩), ("b", ⟨1, 200, 80, 280⟩)] := by
    decide
  have h := ledger_total_fieldwise_sum_order_independent _ _ hp
  exact ⟨hp, h.1.trans (by decide), h.2⟩

/-- C10: calling `add_step_usage` twice with the same step name makes the
second record replace the first in the per-step breakdown of `get_summary`,
while the running total still accumulates both; on a concrete instance the
field-wise sum of the breakdown is strictly below the grand total. -/
theorem same_step_name_replaces_breakdown_total_keeps_both (n : String) (u1 u2 : Usage) :
    (get_summary (add_step_usage (add_step_usage UsageTracker.init n u1) n u2)).1
        = [(n, mkStepUsage n u2)] ∧
    (get_summary (add_step_usage (add_step_usage UsageTracker.init n u1) n u2)).2
        = Usage.addU u1 u2 ∧
    (breakdownSum (add_step_usage (add_step_usage UsageTracker.init "s" ⟨1, 100, 50, 150⟩)
        "s" ⟨1, 200, 80, 280⟩)).input_tokens
      < (get_summary (add_step_usage (add_step_usage UsageTracker.init "s" ⟨1, 100, 50, 150⟩)
        "s" ⟨1, 200, 80, 280⟩)).2.input_tokens := by
  refine ⟨?_, ?_, by decide⟩
  · simp [get_summary, add_step_usage, UsageTracker.init, dictSet]
  · simp [get_summary, add_step_usage, UsageTracker.init, Usage.addU, Usage.init]

/-! ## Listing schemas (`models/schemas.py`) -/

/-- `QuestionItem`: one listed question (index + exact label). -/
structure QuestionItem where
  question_index : Int
  question_label : String
deriving Repr, DecidableEq

/-- `QuestionList`: the lister's output collection. -/
structure QuestionList where
  exam_type : String
  total_questions : Int
  questions : List QuestionItem
deriving Repr, DecidableEq

/-- `QuestionList.validate_consistency`: `len(self.questions) == self.total_questions`. -/
def QuestionList.validate_consistency (q : QuestionList) : Bool :=
  (q.questions.length : Int) == q.total_questions

/-- `QuestionItemWithPages`: a listed question plus its page locations. -/
structure QuestionItemWithPages where
  question_index : Int
  question_label : String
  paper_pages : List Int
  solution_pages : List Int
deriving Repr, DecidableEq

/-- `QuestionListWithPages`: the merged collection with page locations. -/
structure QuestionListWithPages where
  exam_type : String
  total_questions : Int
  questions : List QuestionItemWithPages
deriving Repr, DecidableEq

/-- `QuestionListWithPages.validate_consistency`. -/
def QuestionListWithPages.validate_consistency (q : QuestionListWithPages) : Bool :=
  (q.questions.length : Int) == q.total_questions

/-! ## Validation-gated listing retry (`agents/_1_question_lister_agent.py`) -/

/-- The regex `^\d+\([a-z]\)$` with `re.IGNORECASE` from
`validate_question_list_format`: one or more digits, then a single ASCII
letter in parentheses, and nothing else. -/
def matchesType1 (s : String) : Bool :=
  let cs := s.data
  let ds := cs.takeWhile Char.isDigit
  let rest := cs.dropWhile Char.isDigit
  !ds.isEmpty &&
    match rest with
    | ['(', c, ')'] => c.isAlpha
    | _ => false

/-- `validate_question_list_format`: checks the candidate collection's labels
against the exam type's pattern rules.  Returns `(is_valid, error_reason)`;
the reason strings are abbreviated (the source interpolates sample labels into
them, which no claim reads).  The source's float comparison
`type1_count / len(labels) < 0.2` is modelled exactly over the rationals as
`type1_count * 5 < len(labels)`. -/
def validate_question_list_format (question_list : QuestionList) (exam_type : String) :
    Bool × String :=
  let labels := question_list.questions.map (fun q => q.question_label)
  if exam_type = "type1" then
    let type1_count := (labels.filter matchesType1).length
    if type1_count = 0 then
      (false, "Type1 exam should contain questions like 10(a), 11(b), but found none.")
    else if 0 < labels.length && type1_count * 5 < labels.length then
      (false, "Type1 exam should have most questions in X(a) format.")
    else (true, "")
  else if exam_type = "type2" then
    let type1_count := (labels.filter matchesType1).length
    if 0 < type1_count then
      (false, "Type2 exam should NOT have sub-part labels as separate questions.")
    else (true, "")
  else (true, "")

/-- `list_all_questions_direct`, with the external completion call abstracted
as `responder`: attempt number ↦ parsed candidate collection, or an error for
a raised transport/JSON failure (which the source re-raises).  The second
component counts the listing requests issued.  The source recurses on itself
with `retry_count + 1` when validation fails on the first attempt
(`retry_count == 0`); a still-invalid retried collection is returned as-is
after logging. -/
def list_all_questions_direct (exam_type : String)
    (responder : Nat → Except String QuestionList) (retry_count : Nat) :
    Except String QuestionList × Nat :=
  match responder retry_count with
  | .error e => (.error e, 1)
  | .ok question_list =>
    let v := validate_question_list_format question_list exam_type
    if v.1 = false then
      if hrc : retry_count = 0 then
        let r := list_all_questions_direct exam_type responder (retry_count + 1)
        (r.1, r.2 + 1)
      else
        (.ok question_list, 1)
    else
      (.ok question_list, 1)
termination_by 1 - retry_count
decreasing_by subst hrc; omega

/-! ## Page-location annotator stage (`list_all_questions_with_pages_direct`) -/

/-- Python `dict.get(key, [])` on an annotation map. -/
def lookupPages (m : List (String × List Int)) (label : String) : List Int :=
  match m.find? (fun p => p.1 = label) with
  | some p => p.2
  | none => []

/-- The merge at the end of `list_all_questions_with_pages_direct`: every
listed question is paired with its page lists from the two branch maps,
missing entries defaulting to `[]`; `total_questions` is set to the length of
the merged list. -/
def mergeWithPages (question_list : QuestionList)
    (paper_pages_map solution_pages_map : List (String × List Int)) :
    QuestionListWithPages :=
  let questions_with_pages := question_list.questions.map (fun q =>
    { question_index := q.question_index
      question_label := q.question_label
      paper_pages := lookupPages paper_pages_map q.question_label
      solution_pages := lookupPages solution_pages_map q.question_label
      : QuestionItemWithPages })
  { exam_type := question_list.exam_type
    total_questions := (questions_with_pages.length : Int)
    questions := questions_with_pages }

/-- The two-branch annotation stage of `list_all_questions_with_pages_direct`:
`asyncio.gather(annotate_paper_pages, annotate_solution_pages,
return_exceptions=True)`, then a `RuntimeError` with the joined messages if
either branch raised, otherwise the merge of the two maps.  Each branch
outcome is the abstracted result of its annotation call. -/
def annotateStage (question_list : QuestionList)
    (paperBranch solutionBranch : Except String (List (String × List Int))) :
    Except String QuestionListWithPages :=
  match paperBranch, solutionBranch with
  | .ok paper_pages_map, .ok solution_pages_map =>
      .ok (mergeWithPages question_list paper_pages_map solution_pages_map)
  | .error e, .ok _ => .error ("Paper annotation failed: " ++ e)
  | .ok _, .error e => .error ("Solution annotation failed: " ++ e)
  | .error e1, .error e2 =>
      .error ("Paper annotation failed: " ++ e1 ++ "; Solution annotation failed: " ++ e2)

/-- `Except` success test. -/
def exceptOk {ε α : Type} : Except ε α → Bool
  | .ok _ => true
  | .error _ => false

lemma list_calls_at_retry_one (exam_type : String)
    (responder : Nat → Except String QuestionList) :
    (list_all_questions_direct exam_type responder 1).2 = 1 := by
  unfold list_all_questions_direct
  cases hr : responder 1 <;> simp

lemma list_calls_le_two (exam_type : String)
    (responder : Nat → Except String QuestionList) :
    (list_all_questions_direct exam_type responder 0).2 ≤ 2 := by
  unfold list_all_questions_direct
  cases hr : responder 0 with
  | error e => simp
  | ok ql =>
      simp only
      split
      · simp [list_calls_at_retry_one]
      · simp

/-- A collection that fails `type1` format validation on every attempt: its
only label has no `X(a)` sub-part form. -/
def qlUnsplit : QuestionList := ⟨"type1", 1, [⟨1, "Question 1"⟩]⟩

/-- A responder whose candidate fails validation on the first attempt and on
the emphasized retry alike. -/
def respUnsplit : Nat → Except String QuestionList := fun _ => .ok qlUnsplit

/-- C4 counterexample: with validation failing on both attempts, the wrapper
returns the second candidate collection completely unchanged after exactly two
requests — it is bit-for-bit the raw candidate, and the returned type
(`QuestionList`, the full payload `list_all_questions_direct` yields in the
source) carries no `unverified` flag, so the claimed flagging does not
happen. -/
theorem lister_unverified_flag_counterexample :
    (validate_question_list_format qlUnsplit "type1").1 = false ∧
    list_all_questions_direct "type1" respUnsplit 0 = (.ok qlUnsplit, 2) := by
  refine ⟨by decide, ?_⟩
  have inner : list_all_questions_direct "type1" respUnsplit 1 = (.ok qlUnsplit, 1) := by
    unfold list_all_questions_direct
    simp [respUnsplit, show (validate_question_list_format qlUnsplit "type1").1 = false from by decide]
  unfold list_all_questions_direct
  simp [respUnsplit, inner,
    show (validate_question_list_format qlUnsplit "type1").1 = false from by decide]

/-- C4 (amended): when content validation of the candidate collection fails,
the wrapper reissues the request exactly once — at most two requests are ever
made, whatever the responder does — and a retried collection that still fails
validation is returned as-is (failure only logged; no flag is attached). -/
theorem lister_retry_exactly_once (exam_type : String)
    (responder : Nat → Except String QuestionList) (ql0 ql1 : QuestionList)
    (h0 : responder 0 = .ok ql0)
    (hv0 : (validate_question_list_format ql0 exam_type).1 = false)
    (h1 : responder 1 = .ok ql1)
    (hv1 : (validate_question_list_format ql1 exam_type).1 = false) :
    (∀ r : Nat → Except String QuestionList,
        (list_all_questions_direct exam_type r 0).2 ≤ 2) ∧
    list_all_questions_direct exam_type responder 0 = (.ok ql1, 2) := by
  refine ⟨fun r => list_calls_le_two exam_type r, ?_⟩
  have inner : list_all_questions_direct exam_type responder 1 = (.ok ql1, 1) := by
    unfold list_all_questions_direct
    simp [h1, hv1]
  unfold list_all_questions_direct
  simp [h0, hv0, inner]

/-- C4 witness: the amended behaviour at a concrete twice-failing responder. -/
theorem lister_retry_exactly_once_witness :
    (∀ r : Nat → Except String QuestionList,
        (list_all_questions_direct "type1" r 0).2 ≤ 2) ∧
    list_all_questions_direct "type1" respUnsplit 0 = (.ok qlUnsplit, 2) :=
  lister_retry_exactly_once "type1" respUnsplit qlUnsplit qlUnsplit rfl (by decide) rfl (by decide)

/-- A listing candidate with an inconsistent declared total (3 ≠ 2) and a
duplicated label, which nevertheless passes `type2` format validation. -/
def qlDup : QuestionList := ⟨"type2", 3, [⟨1, "Question 1"⟩, ⟨2, "Question 1"⟩]⟩

/-- C9 counterexample: the listing stage returns a collection whose declared
total differs from its item count and whose labels are duplicated — the
consistency check in the source only logs a warning and uniqueness is never
checked, so neither invariant is guaranteed for the listing output. -/
theorem collection_invariants_counterexample :
    list_all_questions_direct "type2" (fun _ => .ok qlDup) 0 = (.ok qlDup, 1) ∧
    qlDup.validate_consistency = false ∧
    ¬ (qlDup.questions.map (fun q => q.question_label)).Nodup := by
  refine ⟨?_, by decide, by decide⟩
  unfold list_all_questions_direct
  simp [show (validate_question_list_format qlDup "type2").1 = true from by decide]

/-- C9 (amended): the merged collection with page locations always satisfies
`total == len(items)`, because the merge sets the total from the merged list's
length; the listing output's total and the label uniqueness of either
collection are not enforced (only checked and logged). -/
theorem merged_collection_total_consistent (question_list : QuestionList)
    (paper_pages_map solution_pages_map : List (String × List Int)) :
    (mergeWithPages question_list paper_pages_map solution_pages_map).validate_consistency
      = true := by
  simp [mergeWithPages, QuestionListWithPages.validate_consistency]

/-- Concrete inputs for the annotator stage witness. -/
def qlPages : QuestionList := ⟨"type1", 1, [⟨1, "10(a)"⟩]⟩

/-- Concrete primary-branch annotation map. -/
def pmPages : List (String × List Int) := [("10(a)", [5])]

/-- Concrete companion-branch annotation map. -/
def smPages : List (String × List Int) := [("10(a)", [2, 3])]

/-- C5: the annotation stage succeeds exactly when both concurrent branches
succeed, and any returned page-location collection is the merge of both
branches' full maps — if either branch raises, the stage raises to the
controller and no partially merged collection is ever returned. -/
theorem annotator_no_partial_merge (question_list : QuestionList)
    (paperBranch solutionBranch : Except String (List (String × List Int))) :
    (exceptOk (annotateStage question_list paperBranch solutionBranch)
        = (exceptOk paperBranch && exceptOk solutionBranch)) ∧
    (∀ merged, annotateStage question_list paperBranch solutionBranch = .ok merged →
      ∃ paper_pages_map solution_pages_map,
        paperBranch = .ok paper_pages_map ∧ solutionBranch = .ok solution_pages_map ∧
        merged = mergeWithPages question_list paper_pages_map solution_pages_map) := by
  constructor
  · cases paperBranch <;> cases solutionBranch <;> rfl
  · intro merged hm
    cases paperBranch with
    | error e => cases solutionBranch <;> simp [annotateStage] at hm
    | ok pm =>
        cases solutionBranch with
        | error e => simp [annotateStage] at hm
        | ok sm =>
            refine ⟨pm, sm, rfl, rfl, ?_⟩
            simp only [annotateStage, Except.ok.injEq] at hm
            exact hm.symm

/-- C5 witness: a throwing companion branch aborts the stage (no collection is
returned), and a fully successful run returns exactly the two-map merge. -/
theorem annotator_no_partial_merge_witness :
    exceptOk (annotateStage qlPages (.ok pmPages) (.error "boom")) = false ∧
    (∃ paper_pages_map solution_pages_map,
      (Except.ok pmPages : Except String (List (String × List Int))) = .ok paper_pages_map ∧
      (Except.ok smPages : Except String (List (String × List Int))) = .ok solution_pages_map ∧
      mergeWithPages qlPages pmPages smPages
        = mergeWithPages qlPages paper_pages_map solution_pages_map) :=
  ⟨((annotator_no_partial_merge qlPages (.ok pmPages) (.error "boom")).1).trans (by decide),
   (annotator_no_partial_merge qlPages (.ok pmPages) (.ok smPages)).2 _ rfl⟩

/-! ## Per-item two-phase agent (`agents/_3dot5_concurrent_latex_agent.py`)
and the fan-out of `workflow.run_complete_workflow` -/

/-- `ImageInfo` from `models/schemas.py`; the float bbox is modelled over `ℚ`. -/
structure ImageInfo where
  page_number : Int
  bbox : List ℚ
  description : Option String
  image_path : Option String
deriving Repr, DecidableEq

/-- `QuestionLatexOutput` from `models/schemas.py`. -/
structure QuestionLatexOutput where
  question_label : String
  question_latex : String
  question_images : List ImageInfo
  compilation_success : Bool
  error_message : Option String
deriving Repr, DecidableEq

/-- `AnswerLatexOutput` from `models/schemas.py`. -/
structure AnswerLatexOutput where
  question_label : String
  answer_latex : String
  answer_images : List ImageInfo
  marks : Option Int
  compilation_success : Bool
  error_message : Option String
deriving Repr, DecidableEq

/-- The two-valued `question_type` literal of `QuestionLabelOutput`. -/
inductive QType where
  | shortAnswer
  | multipleChoice
deriving Repr, DecidableEq

/-- `QuestionLabelOutput` from `models/schemas.py` (the Phase-2 classification). -/
structure QuestionLabelOutput where
  question_index : Int
  question_label : String
  topic_id : Int
  subtopic_id : Int
  question_type : QType
  difficulty : Option String
  mark : Option Int
  confidence : Option ℚ
  reasoning : String
deriving Repr, DecidableEq

/-- `UsageWithDuration` from `agents/__init__.py` (duration over `ℚ`). -/
structure UsageWithDuration where
  usage : Usage
  duration_seconds : ℚ
deriving Repr, DecidableEq

/-- The tuple `generate_question_and_answer_latex_concurrent` returns. -/
structure ConcurrentLatexResult where
  q_latex : QuestionLatexOutput
  a_latex : AnswerLatexOutput
  label_output : Option QuestionLabelOutput
  q_usage : UsageWithDuration
  a_usage : UsageWithDuration
  label_usage : Option UsageWithDuration
deriving Repr, DecidableEq

/-- `generate_question_and_answer_latex_concurrent`, with the three external
calls abstracted as `Except` outcomes (`qCall`/`aCall` are the two Phase-1
generations gathered with `return_exceptions=True`; `labelCall` is the Phase-2
classification).  The source re-raises a Phase-1 exception (`qCall` checked
first), issues the labelling call only under `enable_labelling`, and swallows
a labelling exception, continuing with `label_output = label_usage = None`.
The second component records whether the Phase-2 call was issued. -/
def generate_question_and_answer_latex_concurrent
    (qCall : Except String (QuestionLatexOutput × UsageWithDuration))
    (aCall : Except String (AnswerLatexOutput × UsageWithDuration))
    (labelCall : Except String (QuestionLabelOutput × UsageWithDuration))
    (enable_labelling : Bool) :
    Except String ConcurrentLatexResult × Bool :=
  match qCall with
  | .error e => (.error e, false)
  | .ok (q_latex, q_usage) =>
    match aCall with
    | .error e => (.error e, false)
    | .ok (a_latex, a_usage) =>
      if enable_labelling then
        match labelCall with
        | .ok (label_output, label_usage) =>
            (.ok ⟨q_latex, a_latex, some label_output, q_usage, a_usage, some label_usage⟩, true)
        | .error _ =>
            (.ok ⟨q_latex, a_latex, none, q_usage, a_usage, none⟩, true)
      else
        (.ok ⟨q_latex, a_latex, none, q_usage, a_usage, none⟩, false)

/-- The success dict returned at the end of `process_single_question`'s try
block, restricted to the claim-relevant keys. -/
structure ItemSuccessRecord where
  question_index : Int
  question_label : String
  paper_pages : List Int
  solution_pages : List Int
  q_latex : QuestionLatexOutput
  a_latex : AnswerLatexOutput
  label : Option QuestionLabelOutput
deriving Repr, DecidableEq

/-- The dict `process_single_question` resolves to: either the success dict
(`"success": True`) or the failure dict built in the `except` handler
(`"success": False` plus the item's identifiers and the error message). -/
inductive ItemRecord where
  | success (payload : ItemSuccessRecord)
  | failure (question_index : Int) (question_label : String)
      (paper_pages solution_pages : List Int) (error : String)
deriving Repr, DecidableEq

/-- The spec's `ItemResult.status` enumeration, read off the record shape the
code produces: `degraded` stands for the spec's `PartialSuccess`. -/
inductive ItemStatus where
  | fullSuccess
  | degraded
  | failed
deriving Repr, DecidableEq

/-- Status of a resolved item: a failure dict is `failed`; a success dict is
`fullSuccess` when the classification is present and `degraded`
(the spec's `PartialSuccess`) when it is absent. -/
def ItemRecord.status : ItemRecord → ItemStatus
  | .success p => if p.label.isSome then .fullSuccess else .degraded
  | .failure _ _ _ _ _ => .failed

/-- `process_single_question` from `workflow.run_complete_workflow`: the try
block calls the concurrent agent with `enable_labelling=True`, then performs
the image-extraction and JSON-saving steps (abstracted as `postSteps`, whose
exception the same handler catches); any exception resolves the item to the
failure dict, never escaping the task. -/
def process_single_question (item : QuestionItemWithPages)
    (qCall : Except String (QuestionLatexOutput × UsageWithDuration))
    (aCall : Except String (AnswerLatexOutput × UsageWithDuration))
    (labelCall : Except String (QuestionLabelOutput × UsageWithDuration))
    (postSteps : Except String Unit) : ItemRecord :=
  match (generate_question_and_answer_latex_concurrent qCall aCall labelCall true).1 with
  | .error e =>
      .failure item.question_index item.question_label item.paper_pages item.solution_pages e
  | .ok r =>
    match postSteps with
    | .error e =>
        .failure item.question_index item.question_label item.paper_pages item.solution_pages e
    | .ok _ =>
        .success ⟨item.question_index, item.question_label, item.paper_pages,
          item.solution_pages, r.q_latex, r.a_latex, r.label_output⟩

/-- One entry of `all_questions_results` as assembled by the result loop of
`run_complete_workflow`: an unexpected exception object from `gather` yields a
bare error dict; a success dict is copied with the internal keys popped; a
failure dict keeps the item identifiers and the message. -/
inductive AssembledEntry where
  | processed (question_index : Int) (question_label : String)
      (paper_pages solution_pages : List Int) (label : Option QuestionLabelOutput)
  | failedEntry (question_index : Int) (question_label : String) (error : String)
  | crashed (error : String)
deriving Repr, DecidableEq

/-- The body of the result-assembly loop for a single `gather` outcome. -/
def assembleOne : Except String ItemRecord → AssembledEntry
  | .error e => .crashed e
  | .ok (.success p) =>
      .processed p.question_index p.question_label p.paper_pages p.solution_pages p.label
  | .ok (.failure qi lbl _ _ e) => .failedEntry qi lbl e

/-- The external-call outcomes feeding one item's task. -/
structure ItemCallOutcomes where
  qCall : Except String (QuestionLatexOutput × UsageWithDuration)
  aCall : Except String (AnswerLatexOutput × UsageWithDuration)
  labelCall : Except String (QuestionLabelOutput × UsageWithDuration)
  postSteps : Except String Unit

/-- The fan-out of `run_complete_workflow`: one `process_single_question` task
per enumerated question, awaited together (`asyncio.gather(*tasks,
return_exceptions=True)`) and assembled in order.  Each task resolves (its
handler catches every exception), so every `gather` outcome is a record, and
the task at position `i` consumes only its own call outcomes `env i`. -/
def run_complete_workflow_fanout (questions : List QuestionItemWithPages)
    (env : Nat → ItemCallOutcomes) : List AssembledEntry :=
  questions.enum.map (fun p =>
    assembleOne (.ok (process_single_question p.2
      (env p.1).qCall (env p.1).aCall (env p.1).labelCall (env p.1).postSteps)))

/-- C1: the fan-out assembles exactly one entry per input question — the
result list has the input's length, and the entry at every position `i` is a
function of that item and of its own task's call outcomes alone, so an
exception inside one item's processing (resolved to a failure record at that
item's boundary) can never affect a sibling entry or the controller. -/
theorem fanout_one_result_per_item (questions : List QuestionItemWithPages)
    (env : Nat → ItemCallOutcomes) :
    (run_complete_workflow_fanout questions env).length = questions.length ∧
    (∀ i item, questions[i]? = some item →
      (run_complete_workflow_fanout questions env)[i]? =
        some (assembleOne (.ok (process_single_question item
          (env i).qCall (env i).aCall (env i).labelCall (env i).postSteps)))) := by
  constructor
  · simp [run_complete_workflow_fanout]
  · intro i item hi
    simp [run_complete_workflow_fanout, List.getElem?_map, List.getElem?_enum, hi]

/-- Concrete fixture: a listed question item. -/
def itemA : QuestionItemWithPages := ⟨1, "Question 1", [0], [10]⟩

/-- Concrete fixture: a second listed question item. -/
def itemB : QuestionItemWithPages := ⟨2, "Question 2", [1], [11]⟩

/-- Concrete fixture: a third listed question item. -/
def itemC : QuestionItemWithPages := ⟨3, "Question 3", [2], [12]⟩

/-- Concrete fixture: a Phase-1 question-markup output. -/
def qOutX : QuestionLatexOutput := ⟨"Question 1", "q latex", [], true, none⟩

/-- Concrete fixture: a Phase-1 answer-markup output. -/
def aOutX : AnswerLatexOutput := ⟨"Question 1", "a latex", [], some 3, true, none⟩

/-- Concrete fixture: a Phase-2 classification output. -/
def lblX : QuestionLabelOutput :=
  ⟨1, "Question 1", 2, 17, .shortAnswer, some "Easy", some 3, some 1, "because"⟩

/-- Concrete fixture: a usage record with duration. -/
def uwdX : UsageWithDuration := ⟨⟨1, 10, 5, 15⟩, 2⟩

/-- Concrete fixture: call outcomes of a fully successful item task. -/
def envGood : ItemCallOutcomes := ⟨.ok (qOutX, uwdX), .ok (aOutX, uwdX), .ok (lblX, uwdX), .ok ()⟩

/-- Concrete fixture: call outcomes whose question-markup generation raises. -/
def envBoom : ItemCallOutcomes := ⟨.error "boom", .ok (aOutX, uwdX), .ok (lblX, uwdX), .ok ()⟩

/-- Concrete fixture: per-position call outcomes where only item 2 (index 1)
fails. -/
def envMixed : Nat → ItemCallOutcomes := fun i => if i = 1 then envBoom else envGood

/-- C1 witness: over three items with the middle item's Phase-1 call raising,
the assembly holds one entry per item; the failing item resolves to a failure
entry while its siblings resolve to processed entries. -/
theorem fanout_one_result_per_item_witness :
    (run_complete_workflow_fanout [itemA, itemB, itemC] envMixed).length = 3 ∧
    (run_complete_workflow_fanout [itemA, itemB, itemC] envMixed)[1]? =
      some (.failedEntry 2 "Question 2" "boom") ∧
    (run_complete_workflow_fanout [itemA, itemB, itemC] envMixed)[0]? =
      some (.processed 1 "Question 1" [0] [10] (some lblX)) ∧
    (run_complete_workflow_fanout [itemA, itemB, itemC] envMixed)[2]? =
      some (.processed 3 "Question 3" [2] [12] (some lblX)) := by
  have h := fanout_one_result_per_item [itemA, itemB, itemC] envMixed
  exact ⟨h.1.trans (by decide), (h.2 1 itemB (by decide)).trans (by decide),
    (h.2 0 itemA (by decide)).trans (by decide), (h.2 2 itemC (by decide)).trans (by decide)⟩

/-- C2: with labelling enabled, the Phase-2 classification call is issued if
and only if both Phase-1 calls (question markup and answer markup) succeeded;
a failure of either Phase-1 call means no labelling call is made for the
item. -/
theorem labelling_iff_phase1_success
    (qCall : Except String (QuestionLatexOutput × UsageWithDuration))
    (aCall : Except String (AnswerLatexOutput × UsageWithDuration))
    (labelCall : Except String (QuestionLabelOutput × UsageWithDuration))
    (enable_labelling : Bool) (hen : enable_labelling = true) :
    ((generate_question_and_answer_latex_concurrent qCall aCall labelCall enable_labelling).2
        = true
      ↔ (exceptOk qCall = true ∧ exceptOk aCall = true)) := by
  subst hen
  cases qCall with
  | error e => simp [generate_question_and_answer_latex_concurrent, exceptOk]
  | ok qv =>
    obtain ⟨qlx, qu⟩ := qv
    cases aCall with
    | error e => simp [generate_question_and_answer_latex_concurrent, exceptOk]
    | ok av =>
      obtain ⟨alx, au⟩ := av
      cases labelCall with
      | ok lv =>
          obtain ⟨lo, lu⟩ := lv
          simp [generate_question_and_answer_latex_concurrent, exceptOk]
      | error e => simp [generate_question_and_answer_latex_concurrent, exceptOk]

/-- C2 witness: both Phase-1 calls succeed, so the labelling call is issued
(here it will itself fail, which does not retract that it was made). -/
theorem labelling_iff_phase1_success_witness :
    (generate_question_and_answer_latex_concurrent
        (.ok (qOutX, uwdX)) (.ok (aOutX, uwdX)) (.error "label boom") true).2 = true :=
  (labelling_iff_phase1_success (.ok (qOutX, uwdX)) (.ok (aOutX, uwdX))
    (.error "label boom") true rfl).mpr ⟨rfl, rfl⟩

/-- C3: when both Phase-1 calls succeed and the Phase-2 labelling call raises,
the agent swallows the exception and returns the Phase-1 outputs unchanged
with the classification fields absent; the enclosing item task resolves to a
success record of status `degraded` (the spec's `PartialSuccess`), never to a
failure of the whole item. -/
theorem phase2_failure_degrades_not_fails (item : QuestionItemWithPages)
    (qp : QuestionLatexOutput × UsageWithDuration)
    (ap : AnswerLatexOutput × UsageWithDuration)
    (e : String)
    (labelCall : Except String (QuestionLabelOutput × UsageWithDuration))
    (hl : labelCall = .error e) :
    (generate_question_and_answer_latex_concurrent (.ok qp) (.ok ap) labelCall true).1
        = .ok ⟨qp.1, ap.1, none, qp.2, ap.2, none⟩ ∧
    process_single_question item (.ok qp) (.ok ap) labelCall (.ok ()) =
      .success ⟨item.question_index, item.question_label, item.paper_pages,
        item.solution_pages, qp.1, ap.1, none⟩ ∧
    (process_single_question item (.ok qp) (.ok ap) labelCall (.ok ())).status
        = .degraded := by
  subst hl
  obtain ⟨qlx, qu⟩ := qp
  obtain ⟨alx, au⟩ := ap
  exact ⟨rfl, rfl, rfl⟩

/-- C3 witness: the degradation at a concrete item whose labelling call
raises. -/
theorem phase2_failure_degrades_not_fails_witness :
    (generate_question_and_answer_latex_concurrent
        (.ok (qOutX, uwdX)) (.ok (aOutX, uwdX)) (.error "label boom") true).1
      = .ok ⟨qOutX, aOutX, none, uwdX, uwdX, none⟩ ∧
    process_single_question itemA (.ok (qOutX, uwdX)) (.ok (aOutX, uwdX))
        (.error "label boom") (.ok ()) =
      .success ⟨1, "Question 1", [0], [10], qOutX, aOutX, none⟩ ∧
    (process_single_question itemA (.ok (qOutX, uwdX)) (.ok (aOutX, uwdX))
        (.error "label boom") (.ok ())).status = .degraded := by
  have h := phase2_failure_degrades_not_fails itemA (qOutX, uwdX) (aOutX, uwdX)
    "label boom" (.error "label boom") rfl
  exact ⟨h.1, h.2.1.trans (by decide), h.2.2⟩

/-! ## Geometric region refinement loop (`agents/_4_image_bbox_corrector_agent.py`) -/

/-- A region rectangle `[x1, y1, x2, y2]` in document points (floats modelled
over `ℚ`). -/
structure Bbox where
  x1 : ℚ
  y1 : ℚ
  x2 : ℚ
  y2 : ℚ
deriving Repr, DecidableEq

/-- A pixel-space rectangle as passed to `Image.crop`. -/
structure PixelRect where
  x1 : ℤ
  y1 : ℤ
  x2 : ℤ
  y2 : ℤ
deriving Repr, DecidableEq

/-- Python `int(...)` on a real value: truncation toward zero (for a rational
`num/den` with positive denominator this is truncating integer division). -/
def intTrunc (q : ℚ) : ℤ := q.num.tdiv q.den

/-- The conversion-and-clamp block of `correct_image_bbox` (source lines
281–296): document points are scaled to pixels, truncated by `int`, then
clamped so that `0 ≤ x1 ≤ W-1`, `x1+1 ≤ x2 ≤ W` and likewise for `y`. -/
def convertAndClamp (b : Bbox) (scale_x scale_y : ℚ)
    (rendered_page_width rendered_page_height : ℤ) : PixelRect :=
  let pixel_x1 := intTrunc (b.x1 * scale_x)
  let pixel_y1 := intTrunc (b.y1 * scale_y)
  let pixel_x2 := intTrunc (b.x2 * scale_x)
  let pixel_y2 := intTrunc (b.y2 * scale_y)
  let cx1 := max 0 (min pixel_x1 (rendered_page_width - 1))
  let cy1 := max 0 (min pixel_y1 (rendered_page_height - 1))
  let cx2 := max (cx1 + 1) (min pixel_x2 rendered_page_width)
  let cy2 := max (cy1 + 1) (min pixel_y2 rendered_page_height)
  ⟨cx1, cy1, cx2, cy2⟩

/-- The rectangle is strictly positive in both axes and lies inside the
raster. -/
def inRaster (W H : ℤ) (pr : PixelRect) : Prop :=
  0 ≤ pr.x1 ∧ pr.x1 < pr.x2 ∧ pr.x2 ≤ W ∧ 0 ≤ pr.y1 ∧ pr.y1 < pr.y2 ∧ pr.y2 ≤ H

instance (W H : ℤ) (pr : PixelRect) : Decidable (inRaster W H pr) := by
  unfold inRaster
  infer_instance

/-- The observable outcome of one refinement iteration's review call:
`failed` is any exception caught by the iteration's handler (including an
empty response), `correct` is `is_correct=True`, `rejected` is
`is_correct=False` with no corrected bbox supplied, and `corrected` carries a
proposed replacement region in document points. -/
inductive ReviewOutcome where
  | failed
  | correct
  | rejected
  | corrected (bbox : Bbox)
deriving Repr, DecidableEq

/-- What `correct_image_bbox` returns (and, for the claims, what it cropped):
the final bbox, the success flag, the crop history `all_image_paths`, the
pixel rectangles handed to `Image.crop` during the loop, and the number of
loop iterations entered — each of which issues at most one review call.
(The accumulated `Usage` is omitted: no claim reads it.) -/
structure BboxLoopResult where
  bbox : Bbox
  success : Bool
  all_image_paths : List String
  crops : List PixelRect
  review_calls : Nat
deriving Repr, DecidableEq

/-- The `for iteration in range(max_iterations)` loop of `correct_image_bbox`:
per iteration one review call; `correct` returns the current region with the
history; `rejected` and any caught exception break; a corrected region is
converted/clamped, re-cropped from the cached full-page raster, appended to
the history, and iteration continues.  Falling off the loop (or breaking)
returns normally with `success = False`. -/
def bboxLoop (reviewer : Nat → ReviewOutcome) (scale_x scale_y : ℚ) (W H : ℤ)
    (image_type : String) : Nat → Nat → Bbox → List String → List PixelRect → Nat →
    BboxLoopResult
  | _, 0, current_bbox, paths, crops, calls => ⟨current_bbox, false, paths, crops, calls⟩
  | iteration, r + 1, current_bbox, paths, crops, calls =>
    match reviewer iteration with
    | .failed => ⟨current_bbox, false, paths, crops, calls + 1⟩
    | .correct => ⟨current_bbox, true, paths, crops, calls + 1⟩
    | .rejected => ⟨current_bbox, false, paths, crops, calls + 1⟩
    | .corrected b =>
        let pr := convertAndClamp b scale_x scale_y W H
        bboxLoop reviewer scale_x scale_y W H image_type (iteration + 1) r b
          (paths ++ [image_type ++ "_image_corrected_iter" ++ toString (iteration + 1) ++ "_1.png"])
          (crops ++ [pr]) (calls + 1)

/-- `correct_image_bbox` from the start of its refinement loop: the page
raster has been rendered once (its dimensions and the point→pixel scale
ratios are inputs) and the history starts with the original crop. -/
def correct_image_bbox (original_bbox : Bbox) (cropped_image_path : String)
    (rendered_page_width rendered_page_height : ℤ) (scale_x scale_y : ℚ)
    (image_type : String) (reviewer : Nat → ReviewOutcome) (max_iterations : Nat) :
    BboxLoopResult :=
  bboxLoop reviewer scale_x scale_y rendered_page_width rendered_page_height image_type
    0 max_iterations original_bbox [cropped_image_path] [] 0

lemma bboxLoop_calls_le (reviewer : Nat → ReviewOutcome) (sx sy : ℚ) (W H : ℤ)
    (ity : String) :
    ∀ (remaining iteration : Nat) (current : Bbox) (paths : List String)
      (crops : List PixelRect) (calls : Nat),
      (bboxLoop reviewer sx sy W H ity iteration remaining current paths crops calls).review_calls
        ≤ calls + remaining := by
  intro remaining
  induction remaining with
  | zero => intro it cur paths crops calls; simp [bboxLoop]
  | succ r ih =>
      intro it cur paths crops calls
      cases hr : reviewer it <;> simp only [bboxLoop, hr]
      case failed => omega
      case correct => omega
      case rejected => omega
      case corrected b => exact (ih (it + 1) b _ _ (calls + 1)).trans (by omega)

lemma bboxLoop_paths_prefix (reviewer : Nat → ReviewOutcome) (sx sy : ℚ) (W H : ℤ)
    (ity : String) :
    ∀ (remaining iteration : Nat) (current : Bbox) (paths : List String)
      (crops : List PixelRect) (calls : Nat),
      ∃ extra,
        (bboxLoop reviewer sx sy W H ity iteration remaining current paths crops calls).all_image_paths
          = paths ++ extra := by
  intro remaining
  induction remaining with
  | zero => intro it cur paths crops calls; exact ⟨[], by simp [bboxLoop]⟩
  | succ r ih =>
      intro it cur paths crops calls
      cases hr : reviewer it <;> simp only [bboxLoop, hr]
      case failed => exact ⟨[], by simp⟩
      case correct => exact ⟨[], by simp⟩
      case rejected => exact ⟨[], by simp⟩
      case corrected b =>
          obtain ⟨extra, he⟩ := ih (it + 1) b
            (paths ++ [ity ++ "_image_corrected_iter" ++ toString (it + 1) ++ "_1.png"]) _ (calls + 1)
          exact ⟨[ity ++ "_image_corrected_iter" ++ toString (it + 1) ++ "_1.png"] ++ extra,
            by rw [he, List.append_assoc]⟩

lemma bboxLoop_exhaustion (reviewer : Nat → ReviewOutcome) (sx sy : ℚ) (W H : ℤ)
    (ity : String) (h : ∀ i, ∃ b, reviewer i = .corrected b) :
    ∀ (remaining iteration : Nat) (current : Bbox) (paths : List String)
      (crops : List PixelRect) (calls : Nat),
      (bboxLoop reviewer sx sy W H ity iteration remaining current paths crops calls).success
          = false ∧
      (bboxLoop reviewer sx sy W H ity iteration remaining current paths crops calls).review_calls
          = calls + remaining := by
  intro remaining
  induction remaining with
  | zero => intro it cur paths crops calls; simp [bboxLoop]
  | succ r ih =>
      intro it cur paths crops calls
      obtain ⟨b, hb⟩ := h it
      simp only [bboxLoop, hb]
      refine ⟨(ih (it + 1) b _ _ (calls + 1)).1, (ih (it + 1) b _ _ (calls + 1)).2.trans ?_⟩
      omega

lemma convertAndClamp_inRaster (b : Bbox) (sx sy : ℚ) (W H : ℤ)
    (hW : 1 ≤ W) (hH : 1 ≤ H) :
    inRaster W H (convertAndClamp b sx sy W H) := by
  unfold convertAndClamp inRaster
  dsimp only
  omega

lemma bboxLoop_crops_inRaster (reviewer : Nat → ReviewOutcome) (sx sy : ℚ) (W H : ℤ)
    (ity : String) (hW : 1 ≤ W) (hH : 1 ≤ H) :
    ∀ (remaining iteration : Nat) (current : Bbox) (paths : List String)
      (crops : List PixelRect) (calls : Nat),
      (∀ pr ∈ crops, inRaster W H pr) →
      ∀ pr ∈ (bboxLoop reviewer sx sy W H ity iteration remaining current paths crops calls).crops,
        inRaster W H pr := by
  intro remaining
  induction remaining with
  | zero => intro it cur paths crops calls hc; simpa [bboxLoop] using hc
  | succ r ih =>
      intro it cur paths crops calls hc
      cases hr : reviewer it <;> simp only [bboxLoop, hr]
      case failed => simpa using hc
      case correct => simpa using hc
      case rejected => simpa using hc
      case corrected b =>
          refine ih (it + 1) b _ _ (calls + 1) ?_
          intro pr hpr
          rcases List.mem_append.mp hpr with hl | hr2
          · exact hc pr hl
          · rw [List.mem_singleton.mp hr2]
            exact convertAndClamp_inRaster b sx sy W H hW hH

/-- C6: the refinement loop never enters more than `max_iterations`
iterations (so it issues at most `max_iterations` review calls), always
returns normally with a region and a crop history that starts with — and so
at least contains — the original crop, and exhausting the bound without
convergence (a reviewer that corrects forever) ends the loop normally with
`success = False` after exactly `max_iterations` review calls. -/
theorem bbox_loop_bounded_calls_nonempty_history (original_bbox : Bbox)
    (cropped_image_path : String) (W H : ℤ) (sx sy : ℚ) (ity : String)
    (reviewer : Nat → ReviewOutcome) (max_iterations : Nat) :
    (correct_image_bbox original_bbox cropped_image_path W H sx sy ity reviewer
        max_iterations).review_calls ≤ max_iterations ∧
    (correct_image_bbox original_bbox cropped_image_path W H sx sy ity reviewer
        max_iterations).all_image_paths.head? = some cropped_image_path ∧
    (correct_image_bbox original_bbox cropped_image_path W H sx sy ity reviewer
        max_iterations).all_image_paths ≠ [] ∧
    ((∀ i, ∃ b, reviewer i = .corrected b) →
      (correct_image_bbox original_bbox cropped_image_path W H sx sy ity reviewer
          max_iterations).success = false ∧
      (correct_image_bbox original_bbox cropped_image_path W H sx sy ity reviewer
          max_iterations).review_calls = max_iterations) := by
  obtain ⟨extra, he⟩ := bboxLoop_paths_prefix reviewer sx sy W H ity max_iterations 0
    original_bbox [cropped_image_path] [] 0
  have hcalls := bboxLoop_calls_le reviewer sx sy W H ity max_iterations 0
    original_bbox [cropped_image_path] [] 0
  refine ⟨by simpa using hcalls, ?_, ?_, ?_⟩
  · rw [correct_image_bbox, he]; rfl
  · rw [correct_image_bbox, he]; simp
  · intro h
    have := bboxLoop_exhaustion reviewer sx sy W H ity h max_iterations 0
      original_bbox [cropped_image_path] [] 0
    simpa [correct_image_bbox] using this

/-- A reviewer-proposed replacement region with inverted vertical extent
(`y1 > y2`). -/
def bInv : Bbox := ⟨10, 50, 40, 20⟩

/-- A reviewer that proposes the inverted correction on every iteration. -/
def revAlways : Nat → ReviewOutcome := fun _ => .corrected bInv

/-- C6 witness: a reviewer that proposes a correction on every iteration —
the loop runs exactly its 4-iteration bound, keeps the original crop at the
head of the history, and returns normally without converging. -/
theorem bbox_loop_bounded_calls_nonempty_history_witness :
    (correct_image_bbox bInv "orig.png" 100 200 1 1 "question"
        revAlways 4).review_calls ≤ 4 ∧
    (correct_image_bbox bInv "orig.png" 100 200 1 1 "question"
        revAlways 4).all_image_paths.head? = some "orig.png" ∧
    (correct_image_bbox bInv "orig.png" 100 200 1 1 "question"
        revAlways 4).all_image_paths ≠ [] ∧
    (correct_image_bbox bInv "orig.png" 100 200 1 1 "question"
        revAlways 4).success = false ∧
    (correct_image_bbox bInv "orig.png" 100 200 1 1 "question"
        revAlways 4).review_calls = 4 := by
  have h := bbox_loop_bounded_calls_nonempty_history bInv "orig.png"
    100 200 1 1 "question" revAlways 4
  have hx := h.2.2.2 (fun i => ⟨bInv, rfl⟩)
  exact ⟨h.1, h.2.1, h.2.2.1, hx.1, hx.2⟩

/-- C7: on a raster of positive dimensions, the conversion-and-clamp step
always yields a rectangle with `x2 > x1` and `y2 > y1` lying inside the
raster bounds, and consequently every rectangle the refinement loop crops
satisfies that invariant — including when the reviewer proposes an inverted
rectangle with `y1 > y2`. -/
theorem bbox_clamp_positive_area (W H : ℤ) (hW : 1 ≤ W) (hH : 1 ≤ H) :
    (∀ (b : Bbox) (sx sy : ℚ), inRaster W H (convertAndClamp b sx sy W H)) ∧
    (∀ (original_bbox : Bbox) (cropped_image_path : String) (sx sy : ℚ) (ity : String)
        (reviewer : Nat → ReviewOutcome) (max_iterations : Nat),
      ∀ pr ∈ (correct_image_bbox original_bbox cropped_image_path W H sx sy ity reviewer
          max_iterations).crops, inRaster W H pr) := by
  refine ⟨fun b sx sy => convertAndClamp_inRaster b sx sy W H hW hH, ?_⟩
  intro original_bbox cropped_image_path sx sy ity reviewer max_iterations pr hpr
  exact bboxLoop_crops_inRaster reviewer sx sy W H ity hW hH max_iterations 0
    original_bbox [cropped_image_path] [] 0 (by simp) pr hpr

/-- C7 witness: the reviewer proposes the inverted rectangle
`[10, 50, 40, 20]` (`y1 > y2`) on a 100×200 raster; the clamped rectangle
still has a strictly positive area inside the raster, and so does every
rectangle cropped in a full run driven by that reviewer. -/
theorem bbox_clamp_positive_area_witness :
    inRaster 100 200 (convertAndClamp bInv 1 1 100 200) ∧
    (∀ pr ∈ (correct_image_bbox bInv "orig.png" 100 200 1 1 "question" revAlways 4).crops,
      inRaster 100 200 pr) :=
  ⟨(bbox_clamp_positive_area 100 200 (by decide) (by decide)).1 bInv 1 1,
   (bbox_clamp_positive_area 100 200 (by decide) (by decide)).2 bInv "orig.png" 1 1
     "question" revAlways 4⟩

end ImportV4
